import Mathlib

/-!
Shallow embedding of the core of the `ash-examples` repository: queue-family
selection, memory-type selection, command recording with cross-queue
ownership-transfer barriers, submission with semaphore/fence cleanup, and the
GPU-resource construction/rollback path.

Machine integers of the source (`u32`, `u64`, `usize`) are modelled as `Nat`;
none of the embedded computations can overflow their source-side width on the
inputs the program feeds them, and where the source performs a possibly
underflowing subtraction (`3 - unique_indices.len()`) the accompanying theorem
proves the bound that rules the underflow out.  Vulkan flag sets are modelled
as raw `Nat` bitmasks with `contains` as the source's `Flags::contains`
(mask-and equality).  Fallible device calls are driven by explicit outcome
records ("oracles") so that every control-flow path of the source functions is
a value of the embedding.
-/

/-- Sentinel `vk::QUEUE_FAMILY_IGNORED` (`u32::MAX`). -/
def QUEUE_FAMILY_IGNORED : Nat := 4294967295

/-- Sentinel `vk::WHOLE_SIZE` (`u64::MAX`). -/
def WHOLE_SIZE : Nat := 18446744073709551615

/-- `vk::Flags::contains`: all bits of `req` are present in `flags`. -/
def flags_contains (flags req : Nat) : Bool := flags &&& req == req

/-- `vk::QueueFlags::GRAPHICS` raw bit. -/
def GRAPHICS_BIT : Nat := 1

/-- `vk::QueueFlags::COMPUTE` raw bit. -/
def COMPUTE_BIT : Nat := 2

/-- `vk::QueueFlags::TRANSFER` raw bit. -/
def TRANSFER_BIT : Nat := 4

/-- `QueueFamily` from `src/physical_device.rs` (also the shape used by the
`device` module variant): a hardware queue-family index plus its queue count. -/
structure QueueFamily where
  index : Nat
  queue_count : Nat
deriving DecidableEq, Repr

/-- `QueueFamilies` from `src/physical_device.rs`: graphics always present,
dedicated compute/transfer optional, plus the collected unique indices. -/
structure QueueFamilies where
  graphics : QueueFamily
  compute : Option QueueFamily
  transfer : Option QueueFamily
  unique_indices : List Nat
deriving DecidableEq, Repr

/-- `QueueFamilies::get_compute_index` (`src/physical_device.rs`). -/
def QueueFamilies.get_compute_index (qf : QueueFamilies) : Nat :=
  match qf.compute with
  | some family => family.index
  | none => qf.graphics.index

/-- `QueueFamilies::get_transfer_index` (`src/physical_device.rs`). -/
def QueueFamilies.get_transfer_index (qf : QueueFamilies) : Nat :=
  match qf.transfer with
  | some family => family.index
  | none => qf.graphics.index

/-- Modelled from the spec: the declaration of `crate::device::QueueFamilies`
(the `src/device/mod.rs` file) is not among the sources; only its consumers
are.  Its shape is forced by those consumers
(`command_pools/compute.rs`, `command_pools/transfer.rs` use
`queue_families.compute.index` with no unwrap and
`queue_families.transfer.unwrap_or(queue_families.compute)`), and by the
spec's data model, which has `graphics` always present.  So: `graphics` and
`compute` are plain fields and `transfer` is optional. -/
structure DeviceQueueFamilies where
  graphics : QueueFamily
  compute : QueueFamily
  transfer : Option QueueFamily
deriving DecidableEq, Repr

/-- The transfer-role resolution expression appearing verbatim in both
recorders: `queue_families.transfer.unwrap_or(queue_families.compute).index`. -/
def DeviceQueueFamilies.resolved_transfer_index (qf : DeviceQueueFamilies) : Nat :=
  (qf.transfer.getD qf.compute).index

/-- `vk::AccessFlags2` values used by the recorders. -/
inductive AccessFlags2 where
  | NONE
  | TRANSFER_WRITE
  | TRANSFER_READ
  | HOST_READ
deriving DecidableEq, Repr

/-- `vk::PipelineStageFlags2` values used by the recorders. -/
inductive PipelineStageFlags2 where
  | NONE
  | CLEAR
  | TRANSFER
  | COPY
  | HOST
deriving DecidableEq, Repr

/-- `vk::ImageLayout` values used by the recorders. -/
inductive ImageLayout where
  | UNDEFINED
  | TRANSFER_DST_OPTIMAL
  | TRANSFER_SRC_OPTIMAL
deriving DecidableEq, Repr

/-- `vk::ImageMemoryBarrier2` fields relevant to the recorded dependency
(the handle, subresource range and s_type/p_next boilerplate are constant). -/
structure ImageMemoryBarrier2 where
  src_stage_mask : PipelineStageFlags2
  dst_stage_mask : PipelineStageFlags2
  src_access_mask : AccessFlags2
  dst_access_mask : AccessFlags2
  old_layout : ImageLayout
  new_layout : ImageLayout
  src_queue_family_index : Nat
  dst_queue_family_index : Nat
deriving DecidableEq, Repr

/-- `vk::BufferMemoryBarrier2` fields relevant to the recorded dependency. -/
structure BufferMemoryBarrier2 where
  src_stage_mask : PipelineStageFlags2
  dst_stage_mask : PipelineStageFlags2
  src_access_mask : AccessFlags2
  dst_access_mask : AccessFlags2
  src_queue_family_index : Nat
  dst_queue_family_index : Nat
  offset : Nat
  size : Nat
deriving DecidableEq, Repr

/-- One recorded command of a command-buffer sequence.  `pipelineBarrier`
mirrors `cmd_pipeline_barrier2` with the `dependency_info` lists (memory
barriers are always empty in this program and are omitted from the model). -/
inductive Cmd where
  | pipelineBarrier (buffer : List BufferMemoryBarrier2) (image : List ImageMemoryBarrier2)
  | clearColorImage (layout : ImageLayout)
  | copyImageToBuffer (src_layout : ImageLayout) (width height : Nat)
deriving DecidableEq, Repr

/-- All image barriers of a command sequence, in recording order. -/
def imageBarriers (cmds : List Cmd) : List ImageMemoryBarrier2 :=
  cmds.flatMap fun c =>
    match c with
    | .pipelineBarrier _ image => image
    | _ => []

/-- All buffer barriers of a command sequence, in recording order. -/
def bufferBarriers (cmds : List Cmd) : List BufferMemoryBarrier2 :=
  cmds.flatMap fun c =>
    match c with
    | .pipelineBarrier buffer _ => buffer
    | _ => []

/-- The opening barrier of `record_clear_img`
(`src/command_pools/compute.rs`, `prepare_image`). -/
def prepare_image : ImageMemoryBarrier2 where
  src_access_mask := .NONE
  dst_access_mask := .TRANSFER_WRITE
  src_stage_mask := .NONE
  dst_stage_mask := .CLEAR
  old_layout := .UNDEFINED
  new_layout := .TRANSFER_DST_OPTIMAL
  src_queue_family_index := QUEUE_FAMILY_IGNORED
  dst_queue_family_index := QUEUE_FAMILY_IGNORED

/-- The ownership-release barrier of `record_clear_img`. -/
def release_barrier (compute_family transfer_family : Nat) : ImageMemoryBarrier2 where
  src_stage_mask := .CLEAR
  dst_stage_mask := .TRANSFER
  src_access_mask := .TRANSFER_WRITE
  dst_access_mask := .NONE
  old_layout := .TRANSFER_DST_OPTIMAL
  new_layout := .TRANSFER_SRC_OPTIMAL
  src_queue_family_index := compute_family
  dst_queue_family_index := transfer_family

/-- The same-family layout-only barrier of `record_clear_img`. -/
def change_layout : ImageMemoryBarrier2 where
  src_stage_mask := .CLEAR
  dst_stage_mask := .TRANSFER
  src_access_mask := .TRANSFER_WRITE
  dst_access_mask := .TRANSFER_READ
  old_layout := .TRANSFER_DST_OPTIMAL
  new_layout := .TRANSFER_SRC_OPTIMAL
  src_queue_family_index := QUEUE_FAMILY_IGNORED
  dst_queue_family_index := QUEUE_FAMILY_IGNORED

/-- `ComputeCommandBufferPool::record_clear_img`
(`src/command_pools/compute.rs`): the sequence of commands recorded between
`begin_command_buffer` and `end_command_buffer`. -/
def record_clear_img (queue_families : DeviceQueueFamilies) : List Cmd :=
  let compute_family := queue_families.compute.index
  let transfer_family := queue_families.resolved_transfer_index
  [Cmd.pipelineBarrier [] [prepare_image],
   Cmd.clearColorImage .TRANSFER_DST_OPTIMAL] ++
  (if compute_family ≠ transfer_family then
    [Cmd.pipelineBarrier [] [release_barrier compute_family transfer_family]]
  else
    [Cmd.pipelineBarrier [] [change_layout]])

/-- The ownership-acquire barrier of `record_copy_img_to_buffer`
(`src/command_pools/transfer.rs`, `src_acquire`). -/
def src_acquire (compute_family transfer_family : Nat) : ImageMemoryBarrier2 where
  src_access_mask := .NONE
  dst_access_mask := .TRANSFER_READ
  src_stage_mask := .TRANSFER
  dst_stage_mask := .COPY
  old_layout := .TRANSFER_DST_OPTIMAL
  new_layout := .TRANSFER_SRC_OPTIMAL
  src_queue_family_index := compute_family
  dst_queue_family_index := transfer_family

/-- The host-visibility buffer barrier of `record_copy_img_to_buffer`
(`flush_host`). -/
def flush_host : BufferMemoryBarrier2 where
  src_access_mask := .TRANSFER_WRITE
  dst_access_mask := .HOST_READ
  src_stage_mask := .COPY
  dst_stage_mask := .HOST
  src_queue_family_index := QUEUE_FAMILY_IGNORED
  dst_queue_family_index := QUEUE_FAMILY_IGNORED
  offset := 0
  size := WHOLE_SIZE

/-- `IMAGE_WIDTH`/`IMAGE_HEIGHT` as used by the copy region; the recorder is
parametric in them here (the binary fixes 400 x 800 elsewhere). -/
def IMAGE_WIDTH : Nat := 400

def IMAGE_HEIGHT : Nat := 800

/-- `TransferCommandBufferPool::record_copy_img_to_buffer`
(`src/command_pools/transfer.rs`): the sequence of commands recorded between
`begin_command_buffer` and `end_command_buffer`. -/
def record_copy_img_to_buffer (queue_families : DeviceQueueFamilies) : List Cmd :=
  let compute_family := queue_families.compute.index
  let transfer_family := queue_families.resolved_transfer_index
  (if compute_family ≠ transfer_family then
    [Cmd.pipelineBarrier [] [src_acquire compute_family transfer_family]]
  else []) ++
  [Cmd.copyImageToBuffer .TRANSFER_SRC_OPTIMAL IMAGE_WIDTH IMAGE_HEIGHT,
   Cmd.pipelineBarrier [flush_host] []]

/-- Release pattern named by claim C1: ownership handed from `cf` to `tf`,
destination access NONE, layout TRANSFER_DST to TRANSFER_SRC. -/
def is_release_to (cf tf : Nat) (b : ImageMemoryBarrier2) : Bool :=
  b.src_queue_family_index == cf && b.dst_queue_family_index == tf &&
  b.dst_access_mask == .NONE &&
  b.old_layout == .TRANSFER_DST_OPTIMAL && b.new_layout == .TRANSFER_SRC_OPTIMAL

/-- Acquire pattern named by claim C1: same queue-family pair and layout
endpoints as the release, source access NONE, destination TRANSFER_READ. -/
def is_acquire_from (cf tf : Nat) (b : ImageMemoryBarrier2) : Bool :=
  b.src_queue_family_index == cf && b.dst_queue_family_index == tf &&
  b.src_access_mask == .NONE && b.dst_access_mask == .TRANSFER_READ &&
  b.old_layout == .TRANSFER_DST_OPTIMAL && b.new_layout == .TRANSFER_SRC_OPTIMAL

/-- A barrier carrying real (non-ignored) queue family indices. -/
def image_barrier_has_real_families (b : ImageMemoryBarrier2) : Bool :=
  !(b.src_queue_family_index == QUEUE_FAMILY_IGNORED &&
    b.dst_queue_family_index == QUEUE_FAMILY_IGNORED)

/-- Buffer-barrier version of `image_barrier_has_real_families`. -/
def buffer_barrier_has_real_families (b : BufferMemoryBarrier2) : Bool :=
  !(b.src_queue_family_index == QUEUE_FAMILY_IGNORED &&
    b.dst_queue_family_index == QUEUE_FAMILY_IGNORED)

lemma is_release_to_prepare_image (cf tf : Nat) :
    is_release_to cf tf prepare_image = false := by
  have h : (AccessFlags2.TRANSFER_WRITE == AccessFlags2.NONE) = false := by decide
  simp [is_release_to, prepare_image, h]

lemma is_release_to_release_barrier (cf tf : Nat) :
    is_release_to cf tf (release_barrier cf tf) = true := by
  simp [is_release_to, release_barrier]

lemma is_acquire_from_src_acquire (cf tf : Nat) :
    is_acquire_from cf tf (src_acquire cf tf) = true := by
  simp [is_acquire_from, src_acquire]

/-- C1: recording clear and copy with differing resolved compute/transfer
families emits exactly one release barrier in the clear sequence and exactly
one matching acquire in the copy sequence (same family pair, same layout
endpoints, release dst access NONE, acquire src access NONE and dst access
TRANSFER_READ); with equal resolved families neither sequence contains a
barrier with real (non-ignored) queue family indices. -/
theorem C1_ownership_transfer_pairing (qf : DeviceQueueFamilies) :
    (qf.compute.index ≠ qf.resolved_transfer_index →
      ((imageBarriers (record_clear_img qf)).countP
          (is_release_to qf.compute.index qf.resolved_transfer_index) = 1 ∧
       (imageBarriers (record_copy_img_to_buffer qf)).countP
          (is_acquire_from qf.compute.index qf.resolved_transfer_index) = 1)) ∧
    (qf.compute.index = qf.resolved_transfer_index →
      ((imageBarriers (record_clear_img qf)).all
          (fun b => !image_barrier_has_real_families b) ∧
       (bufferBarriers (record_clear_img qf)).all
          (fun b => !buffer_barrier_has_real_families b) ∧
       (imageBarriers (record_copy_img_to_buffer qf)).all
          (fun b => !image_barrier_has_real_families b) ∧
       (bufferBarriers (record_copy_img_to_buffer qf)).all
          (fun b => !buffer_barrier_has_real_families b))) := by
  constructor
  · intro hne
    constructor
    · simp only [record_clear_img, imageBarriers, if_pos hne]
      simp [List.countP_cons, is_release_to_prepare_image, is_release_to_release_barrier]
    · simp only [record_copy_img_to_buffer, imageBarriers, if_pos hne]
      simp [List.countP_cons, is_acquire_from_src_acquire]
  · intro heq
    refine ⟨?_, ?_, ?_, ?_⟩
    · simp only [record_clear_img, imageBarriers, heq]
      simp [image_barrier_has_real_families, prepare_image, change_layout]
    · simp only [record_clear_img, bufferBarriers, heq]
      simp [buffer_barrier_has_real_families]
    · simp only [record_copy_img_to_buffer, imageBarriers, heq]
      simp [image_barrier_has_real_families, flush_host]
    · simp only [record_copy_img_to_buffer, bufferBarriers, heq]
      simp [buffer_barrier_has_real_families, flush_host]

/-- C1 witness: a concrete cross-family configuration (compute family 1,
transfer family 2) and a concrete same-family configuration (transfer absent,
resolving to the compute family). -/
theorem C1_ownership_transfer_pairing_witness :
    ((imageBarriers (record_clear_img ⟨⟨0, 1⟩, ⟨1, 1⟩, some ⟨2, 1⟩⟩)).countP
        (is_release_to 1 2) = 1 ∧
     (imageBarriers (record_copy_img_to_buffer ⟨⟨0, 1⟩, ⟨1, 1⟩, some ⟨2, 1⟩⟩)).countP
        (is_acquire_from 1 2) = 1) ∧
    ((imageBarriers (record_clear_img ⟨⟨0, 1⟩, ⟨1, 1⟩, none⟩)).all
        (fun b => !image_barrier_has_real_families b) ∧
     (bufferBarriers (record_clear_img ⟨⟨0, 1⟩, ⟨1, 1⟩, none⟩)).all
        (fun b => !buffer_barrier_has_real_families b) ∧
     (imageBarriers (record_copy_img_to_buffer ⟨⟨0, 1⟩, ⟨1, 1⟩, none⟩)).all
        (fun b => !image_barrier_has_real_families b) ∧
     (bufferBarriers (record_copy_img_to_buffer ⟨⟨0, 1⟩, ⟨1, 1⟩, none⟩)).all
        (fun b => !buffer_barrier_has_real_families b)) :=
  ⟨(C1_ownership_transfer_pairing ⟨⟨0, 1⟩, ⟨1, 1⟩, some ⟨2, 1⟩⟩).1 (by decide),
   (C1_ownership_transfer_pairing ⟨⟨0, 1⟩, ⟨1, 1⟩, none⟩).2 (by decide)⟩

/-- C7: every recording of the copy-to-host sequence, for any queue-family
configuration, contains the host-flush buffer barrier (stage COPY to HOST,
access TRANSFER_WRITE to HOST_READ, offset 0, size WHOLE_SIZE, no ownership
transfer) as its only buffer barrier, and that barrier is issued by the final
command of the sequence. -/
theorem C7_host_flush_buffer_barrier (qf : DeviceQueueFamilies) :
    bufferBarriers (record_copy_img_to_buffer qf) = [flush_host] ∧
    (record_copy_img_to_buffer qf).getLast? = some (.pipelineBarrier [flush_host] []) ∧
    flush_host.src_stage_mask = .COPY ∧ flush_host.dst_stage_mask = .HOST ∧
    flush_host.src_access_mask = .TRANSFER_WRITE ∧
    flush_host.dst_access_mask = .HOST_READ ∧
    flush_host.offset = 0 ∧ flush_host.size = WHOLE_SIZE := by
  refine ⟨?_, ?_, rfl, rfl, rfl, rfl, rfl, rfl⟩
  · by_cases h : qf.compute.index = qf.resolved_transfer_index <;>
      simp [record_copy_img_to_buffer, bufferBarriers, h]
  · by_cases h : qf.compute.index = qf.resolved_transfer_index <;>
      simp [record_copy_img_to_buffer, h]

/-- A `DeviceQueueFamilies` value with a dedicated compute family (index 1)
distinct from graphics (index 0) and no dedicated transfer family: the shape
the spec itself guarantees to exist on adapters exposing a non-graphics
COMPUTE family and no dedicated transfer family. -/
def qf_dedicated_compute_only : DeviceQueueFamilies where
  graphics := ⟨0, 1⟩
  compute := ⟨1, 1⟩
  transfer := none

/-- C2 counterexample: with transfer absent the recorders resolve the
transfer role with `transfer.unwrap_or(compute)`, obtaining the compute
index 1, not the graphics index 0; consequently the clear recording emits no
barrier naming the graphics family (no ownership transfer at all, since the
resolved pair collapses to the compute family). -/
theorem C2_counterexample :
    qf_dedicated_compute_only.resolved_transfer_index = 1 ∧
    qf_dedicated_compute_only.graphics.index = 0 ∧
    qf_dedicated_compute_only.resolved_transfer_index ≠
      qf_dedicated_compute_only.graphics.index ∧
    (imageBarriers (record_clear_img qf_dedicated_compute_only)).all
      (fun b => !image_barrier_has_real_families b) = true := by
  refine ⟨rfl, rfl, by decide, ?_⟩
  simp only [record_clear_img, imageBarriers]
  norm_num [qf_dedicated_compute_only, DeviceQueueFamilies.resolved_transfer_index]
  decide

/-- C2 as amended: the `QueueFamilies` accessor methods of
`src/physical_device.rs` resolve the absent transfer role to the graphics
index, while the command recorders of `src/command_pools` resolve the absent
transfer role to the compute family's index (which need not be the graphics
index). -/
theorem C2_transfer_fallbacks (qf : QueueFamilies) (dqf : DeviceQueueFamilies)
    (h : qf.transfer = none) (h' : dqf.transfer = none) :
    qf.get_transfer_index = qf.graphics.index ∧
    dqf.resolved_transfer_index = dqf.compute.index := by
  constructor
  · simp [QueueFamilies.get_transfer_index, h]
  · simp [DeviceQueueFamilies.resolved_transfer_index, h']

/-- C2 witness: concrete values with absent transfer on both shapes. -/
theorem C2_transfer_fallbacks_witness :
    (QueueFamilies.get_transfer_index ⟨⟨0, 1⟩, some ⟨1, 1⟩, none, [0, 1]⟩ = 0) ∧
    (DeviceQueueFamilies.resolved_transfer_index ⟨⟨0, 1⟩, ⟨1, 1⟩, none⟩ = 1) :=
  C2_transfer_fallbacks ⟨⟨0, 1⟩, some ⟨1, 1⟩, none, [0, 1]⟩ ⟨⟨0, 1⟩, ⟨1, 1⟩, none⟩ rfl rfl

/-- One entry of `get_physical_device_queue_family_properties`: the
capability bitmask and queue count of one hardware queue family. -/
structure FamilyProps where
  queue_flags : Nat
  queue_count : Nat
deriving DecidableEq, Repr

/-- `family.queue_flags.contains(vk::QueueFlags::GRAPHICS)`. -/
def has_graphics (f : FamilyProps) : Bool := flags_contains f.queue_flags GRAPHICS_BIT

/-- The compute-role condition of the assignment loop: lacks GRAPHICS, has
COMPUTE. -/
def dedicated_compute (f : FamilyProps) : Bool :=
  !has_graphics f && flags_contains f.queue_flags COMPUTE_BIT

/-- The transfer-role condition of the assignment loop: lacks GRAPHICS and
COMPUTE, has TRANSFER. -/
def dedicated_transfer (f : FamilyProps) : Bool :=
  !has_graphics f && !flags_contains f.queue_flags COMPUTE_BIT &&
  flags_contains f.queue_flags TRANSFER_BIT

/-- The queue-family role-assignment loop of `select_physical_device`
(`src/physical_device.rs`): a single pass over the enumerated families with
three mutable `Option` slots, each written at most once, the compute branch
guarded by the absence of GRAPHICS and the transfer branch by the absence of
GRAPHICS and COMPUTE. -/
def assign_families_loop (i : Nat) (graphics compute transfer : Option QueueFamily) :
    List FamilyProps → Option QueueFamily × Option QueueFamily × Option QueueFamily
  | [] => (graphics, compute, transfer)
  | family :: rest =>
    if flags_contains family.queue_flags GRAPHICS_BIT then
      if graphics.isNone then
        assign_families_loop (i + 1) (some ⟨i, family.queue_count⟩) compute transfer rest
      else
        assign_families_loop (i + 1) graphics compute transfer rest
    else if flags_contains family.queue_flags COMPUTE_BIT then
      -- only set if family does not contain graphics flag
      if compute.isNone then
        assign_families_loop (i + 1) graphics (some ⟨i, family.queue_count⟩) transfer rest
      else
        assign_families_loop (i + 1) graphics compute transfer rest
    else if flags_contains family.queue_flags TRANSFER_BIT then
      -- only set if family does not contain graphics nor compute flag
      if transfer.isNone then
        assign_families_loop (i + 1) graphics compute (some ⟨i, family.queue_count⟩) rest
      else
        assign_families_loop (i + 1) graphics compute transfer rest
    else
      assign_families_loop (i + 1) graphics compute transfer rest

/-- First family (from enumeration offset `i`) satisfying `p`, as a
`QueueFamily`. -/
def first_family_from (p : FamilyProps → Bool) (i : Nat) :
    List FamilyProps → Option QueueFamily
  | [] => none
  | family :: rest =>
    if p family then some ⟨i, family.queue_count⟩ else first_family_from p (i + 1) rest

lemma assign_families_loop_eq (rest : List FamilyProps) :
    ∀ (i : Nat) (g c t : Option QueueFamily),
      assign_families_loop i g c t rest =
        (g <|> first_family_from has_graphics i rest,
         c <|> first_family_from dedicated_compute i rest,
         t <|> first_family_from dedicated_transfer i rest) := by
  induction rest with
  | nil =>
    intro i g c t
    simp [assign_families_loop, first_family_from]
  | cons family rest ih =>
    intro i g c t
    by_cases hg : flags_contains family.queue_flags GRAPHICS_BIT
    · have hG : has_graphics family = true := by simp [has_graphics, hg]
      have hC : dedicated_compute family = false := by simp [dedicated_compute, hG]
      have hT : dedicated_transfer family = false := by simp [dedicated_transfer, hG]
      cases g with
      | none =>
        simp [assign_families_loop, hg, ih, first_family_from, hG, hC, hT]
      | some x =>
        simp [assign_families_loop, hg, ih, first_family_from, hG, hC, hT]
    · have hG : has_graphics family = false := by simp [has_graphics, hg]
      by_cases hc : flags_contains family.queue_flags COMPUTE_BIT
      · have hC : dedicated_compute family = true := by simp [dedicated_compute, hG, hc]
        have hT : dedicated_transfer family = false := by simp [dedicated_transfer, hc]
        cases c with
        | none =>
          simp [assign_families_loop, hg, hc, ih, first_family_from, hG, hC, hT]
        | some x =>
          simp [assign_families_loop, hg, hc, ih, first_family_from, hG, hC, hT]
      · have hC : dedicated_compute family = false := by simp [dedicated_compute, hc]
        by_cases ht : flags_contains family.queue_flags TRANSFER_BIT
        · have hT : dedicated_transfer family = true := by
            simp [dedicated_transfer, hG, hc, ht]
          cases t with
          | none =>
            simp [assign_families_loop, hg, hc, ht, ih, first_family_from, hG, hC, hT]
          | some x =>
            simp [assign_families_loop, hg, hc, ht, ih, first_family_from, hG, hC, hT]
        · have hT : dedicated_transfer family = false := by simp [dedicated_transfer, ht]
          simp [assign_families_loop, hg, hc, ht, ih, first_family_from, hG, hC, hT]

lemma first_family_from_some (p : FamilyProps → Bool) :
    ∀ (rest : List FamilyProps) (i : Nat) (fam : QueueFamily),
      first_family_from p i rest = some fam →
      ∃ k f, rest[k]? = some f ∧ p f = true ∧ fam.index = i + k ∧
        fam.queue_count = f.queue_count ∧
        ∀ m, m < k → ∀ f', rest[m]? = some f' → p f' = false := by
  intro rest
  induction rest with
  | nil => intro i fam h; simp [first_family_from] at h
  | cons family rest ih =>
    intro i fam h
    by_cases hp : p family = true
    · rw [first_family_from, if_pos hp] at h
      obtain rfl : fam = ⟨i, family.queue_count⟩ := by
        exact (Option.some_injective _ h).symm
      exact ⟨0, family, by simp, hp, by simp, rfl, by omega⟩
    · rw [first_family_from, if_neg hp] at h
      obtain ⟨k, f, hk, hpf, hidx, hqc, hmin⟩ := ih (i + 1) fam h
      refine ⟨k + 1, f, by simpa using hk, hpf, by omega, hqc, ?_⟩
      intro m hm f' hf'
      cases m with
      | zero =>
        simp at hf'
        subst hf'
        exact Bool.not_eq_true _ ▸ (by simpa using hp)
      | succ m' =>
        exact hmin m' (by omega) f' (by simpa using hf')

lemma first_family_from_none (p : FamilyProps → Bool) :
    ∀ (rest : List FamilyProps) (i : Nat),
      first_family_from p i rest = none ↔ ∀ f ∈ rest, p f = false := by
  intro rest
  induction rest with
  | nil => intro i; simp [first_family_from]
  | cons family rest ih =>
    intro i
    by_cases hp : p family = true
    · simp [first_family_from, hp]
    · simp only [first_family_from, if_neg hp, ih (i + 1)]
      constructor
      · intro h f hf
        rcases List.mem_cons.mp hf with rfl | hf
        · exact Bool.not_eq_true _ ▸ (by simpa using hp)
        · exact h f hf
      · intro h f hf
        exact h f (List.mem_cons_of_mem _ hf)

/-- The queue-family mapping plus candidate construction of
`select_physical_device` (the `filter_map` body in `src/physical_device.rs`):
runs the role-assignment loop from empty slots, returns `none` when the
graphics slot stayed empty, otherwise packs the slots and the collected
unique indices into a `QueueFamilies`. -/
def queue_families_for (props : List FamilyProps) : Option QueueFamilies :=
  match assign_families_loop 0 none none none props with
  | (none, _, _) => none
  | (some graphics, compute, transfer) =>
    some
      { graphics := graphics
        compute := compute
        transfer := transfer
        unique_indices :=
          ([some graphics, compute, transfer].filterMap
            (fun opt => opt.map (fun f => f.index))) }

/-- `fam` is the first family of `props` (by enumeration index) satisfying
`p`: its index points at a `p`-satisfying entry and every earlier entry
fails `p`. -/
def IsFirstWith (p : FamilyProps → Bool) (props : List FamilyProps)
    (fam : QueueFamily) : Prop :=
  ∃ f, props[fam.index]? = some f ∧ p f = true ∧ fam.queue_count = f.queue_count ∧
    ∀ j, j < fam.index → ∀ f', props[j]? = some f' → p f' = false

lemma queue_families_for_none (props : List FamilyProps) :
    queue_families_for props = none ↔ ∀ f ∈ props, has_graphics f = false := by
  rw [queue_families_for, assign_families_loop_eq]
  simp only [Option.none_orElse]
  rcases h : first_family_from has_graphics 0 props with _ | fam
  · simpa [h] using (first_family_from_none has_graphics props 0).mp h
  · simp only []
    constructor
    · intro hcontra; cases hcontra
    · intro hall
      rw [(first_family_from_none has_graphics props 0).mpr hall] at h
      cases h

lemma queue_families_for_some (props : List FamilyProps) (qf : QueueFamilies)
    (h : queue_families_for props = some qf) :
    first_family_from has_graphics 0 props = some qf.graphics ∧
    qf.compute = first_family_from dedicated_compute 0 props ∧
    qf.transfer = first_family_from dedicated_transfer 0 props ∧
    qf.unique_indices =
      ([some qf.graphics, qf.compute, qf.transfer].filterMap
        (fun opt => opt.map (fun f => f.index))) := by
  rw [queue_families_for, assign_families_loop_eq] at h
  simp only [Option.none_orElse] at h
  rcases hg : first_family_from has_graphics 0 props with _ | g <;> rw [hg] at h
  · cases h
  · cases h
    exact ⟨rfl, rfl, rfl, rfl⟩

lemma first_family_from_zero_isFirst (p : FamilyProps → Bool)
    (props : List FamilyProps) (fam : QueueFamily)
    (h : first_family_from p 0 props = some fam) : IsFirstWith p props fam := by
  obtain ⟨k, f, hk, hpf, hidx, hqc, hmin⟩ := first_family_from_some p props 0 fam h
  have hk' : k = fam.index := by omega
  subst hk'
  exact ⟨f, hk, hpf, hqc, fun j hj f' hf' => hmin j hj f' hf'⟩

/-- C4: the single-pass queue-family mapping records as graphics the first
GRAPHICS-capable family; a family lands in the compute slot only if it is the
first one lacking GRAPHICS and having COMPUTE; in the transfer slot only if
it is the first one lacking GRAPHICS and COMPUTE and having TRANSFER (so the
compute and transfer slots never hold a graphics-capable family); an adapter
with no GRAPHICS-capable family yields no candidate. -/
theorem C4_queue_family_mapping (props : List FamilyProps) :
    (queue_families_for props = none ↔ ∀ f ∈ props, has_graphics f = false) ∧
    (∀ qf, queue_families_for props = some qf →
      IsFirstWith has_graphics props qf.graphics ∧
      (∀ c, qf.compute = some c → IsFirstWith dedicated_compute props c) ∧
      (∀ t, qf.transfer = some t → IsFirstWith dedicated_transfer props t)) := by
  refine ⟨queue_families_for_none props, ?_⟩
  intro qf h
  obtain ⟨hg, hc, ht, -⟩ := queue_families_for_some props qf h
  refine ⟨first_family_from_zero_isFirst _ props _ hg, ?_, ?_⟩
  · intro c hcc
    exact first_family_from_zero_isFirst _ props c (hc.symm.trans hcc)
  · intro t htt
    exact first_family_from_zero_isFirst _ props t (ht.symm.trans htt)

/-- C4 witness: a graphics-less adapter is rejected, and on a concrete
adapter (families: TRANSFER-only, GRAPHICS|COMPUTE|TRANSFER, COMPUTE-only,
COMPUTE|TRANSFER) the slots hold the first matching families. -/
theorem C4_queue_family_mapping_witness :
    queue_families_for [⟨4, 1⟩] = none ∧
    IsFirstWith has_graphics [⟨4, 2⟩, ⟨7, 3⟩, ⟨2, 4⟩, ⟨6, 5⟩] ⟨1, 3⟩ ∧
    IsFirstWith dedicated_compute [⟨4, 2⟩, ⟨7, 3⟩, ⟨2, 4⟩, ⟨6, 5⟩] ⟨2, 4⟩ ∧
    IsFirstWith dedicated_transfer [⟨4, 2⟩, ⟨7, 3⟩, ⟨2, 4⟩, ⟨6, 5⟩] ⟨0, 2⟩ :=
  have h := (C4_queue_family_mapping [⟨4, 2⟩, ⟨7, 3⟩, ⟨2, 4⟩, ⟨6, 5⟩]).2
      ⟨⟨1, 3⟩, some ⟨2, 4⟩, some ⟨0, 2⟩, [1, 2, 0]⟩ (by decide)
  ⟨(C4_queue_family_mapping [⟨4, 1⟩]).1.mpr (by decide),
   h.1, h.2.1 ⟨2, 4⟩ rfl, h.2.2 ⟨0, 2⟩ rfl⟩

/-- C10: for every `QueueFamilies` the selector constructs, `unique_indices`
holds pairwise-distinct indices (distinctness follows from the mutually
exclusive capability filters, with no explicit deduplication), its members
are exactly the indices of the roles in use, its length is between 1 and 3,
and the scoring subtraction `3 - unique_indices.len()` is exact (no
underflow). -/
theorem C10_unique_indices_invariant (props : List FamilyProps)
    (qf : QueueFamilies) (h : queue_families_for props = some qf) :
    qf.unique_indices.Nodup ∧
    1 ≤ qf.unique_indices.length ∧ qf.unique_indices.length ≤ 3 ∧
    (3 - qf.unique_indices.length) + qf.unique_indices.length = 3 ∧
    (∀ i, i ∈ qf.unique_indices ↔
      (i = qf.graphics.index ∨
       (∃ c, qf.compute = some c ∧ i = c.index) ∨
       (∃ t, qf.transfer = some t ∧ i = t.index))) := by
  obtain ⟨hg, hc, ht, hu⟩ := queue_families_for_some props qf h
  obtain ⟨fg, hfg, hpg, -, -⟩ := first_family_from_zero_isFirst _ props _ hg
  have gc : ∀ c, qf.compute = some c → c.index ≠ qf.graphics.index := by
    intro c hcc heq
    obtain ⟨fc, hfc, hpc, -, -⟩ :=
      first_family_from_zero_isFirst _ props c (hc.symm.trans hcc)
    rw [heq, hfg] at hfc
    cases Option.some_injective _ hfc
    simp [dedicated_compute, hpg] at hpc
  have gt : ∀ t, qf.transfer = some t → t.index ≠ qf.graphics.index := by
    intro t htt heq
    obtain ⟨ft, hft, hpt, -, -⟩ :=
      first_family_from_zero_isFirst _ props t (ht.symm.trans htt)
    rw [heq, hfg] at hft
    cases Option.some_injective _ hft
    simp [dedicated_transfer, hpg] at hpt
  have ct : ∀ c t, qf.compute = some c → qf.transfer = some t →
      c.index ≠ t.index := by
    intro c t hcc htt heq
    obtain ⟨fc, hfc, hpc, -, -⟩ :=
      first_family_from_zero_isFirst _ props c (hc.symm.trans hcc)
    obtain ⟨ft, hft, hpt, -, -⟩ :=
      first_family_from_zero_isFirst _ props t (ht.symm.trans htt)
    rw [heq, hft] at hfc
    cases Option.some_injective _ hfc
    rw [dedicated_compute, Bool.and_eq_true] at hpc
    simp [dedicated_transfer, hpc.2] at hpt
  rcases hcc : qf.compute with _ | c <;> rcases htt : qf.transfer with _ | t
  · rw [hcc, htt] at hu
    simp only [hu, List.filterMap, Option.map_some, Option.map_none] at *
    refine ⟨by simp, by simp, by simp, by simp, ?_⟩
    intro i
    simp [hcc, htt]
  · rw [hcc, htt] at hu
    have h1 := gt t htt
    simp only [hu, List.filterMap, Option.map_some, Option.map_none] at *
    refine ⟨by simp [Ne.symm h1], by simp, by simp, by simp, ?_⟩
    intro i
    simp [hcc, htt]
  · rw [hcc, htt] at hu
    have h1 := gc c hcc
    simp only [hu, List.filterMap, Option.map_some, Option.map_none] at *
    refine ⟨by simp [Ne.symm h1], by simp, by simp, by simp, ?_⟩
    intro i
    simp [hcc, htt]
  · rw [hcc, htt] at hu
    have h1 := gc c hcc
    have h2 := gt t htt
    have h3 := ct c t hcc htt
    simp only [hu, List.filterMap, Option.map_some, Option.map_none] at *
    refine ⟨by simp [Ne.symm h1, Ne.symm h2, h3], by simp, by simp, by simp, ?_⟩
    intro i
    simp [hcc, htt]

/-- C10 witness: the concrete adapter of the C4 witness, where all three
roles are populated with distinct indices. -/
theorem C10_unique_indices_invariant_witness :
    ([1, 2, 0] : List Nat).Nodup ∧
    1 ≤ ([1, 2, 0] : List Nat).length ∧ ([1, 2, 0] : List Nat).length ≤ 3 ∧
    (3 - ([1, 2, 0] : List Nat).length) + ([1, 2, 0] : List Nat).length = 3 ∧
    (∀ i, i ∈ ([1, 2, 0] : List Nat) ↔
      (i = (1 : Nat) ∨
       (∃ c : QueueFamily, some ⟨2, 4⟩ = some c ∧ i = c.index) ∨
       (∃ t : QueueFamily, some ⟨0, 2⟩ = some t ∧ i = t.index))) :=
  C10_unique_indices_invariant [⟨4, 2⟩, ⟨7, 3⟩, ⟨2, 4⟩, ⟨6, 5⟩]
    ⟨⟨1, 3⟩, some ⟨2, 4⟩, some ⟨0, 2⟩, [1, 2, 0]⟩ (by decide)

/-- `vk::PhysicalDeviceType` raw values (an `i32` newtype in the API). -/
abbrev PhysicalDeviceType := Int

def OTHER_GPU : PhysicalDeviceType := 0

def INTEGRATED_GPU : PhysicalDeviceType := 1

def DISCRETE_GPU : PhysicalDeviceType := 2

def VIRTUAL_GPU : PhysicalDeviceType := 3

def CPU_TYPE : PhysicalDeviceType := 4

/-- The device-type ranking match of `select_physical_device`
(`src/physical_device.rs`): discrete 0, integrated 1, virtual 2, CPU 3,
other 4, unrecognized 5. -/
def device_score (device_type : PhysicalDeviceType) : Nat :=
  if device_type = DISCRETE_GPU then 0
  else if device_type = INTEGRATED_GPU then 1
  else if device_type = VIRTUAL_GPU then 2
  else if device_type = CPU_TYPE then 3
  else if device_type = OTHER_GPU then 4
  else 5

/-- An adapter that survived both filters of `select_physical_device`: its
queried device type together with its assigned queue families. -/
structure Candidate where
  device_type : PhysicalDeviceType
  families : QueueFamilies
deriving DecidableEq, Repr

/-- The scoring closure of the final `min_by_key` in
`select_physical_device`.  The source computes
`3 - families.unique_indices.len()` in `usize`; theorem C10 proves
`unique_indices.len() ≤ 3` for every value the selector constructs, so the
truncated `Nat` subtraction here agrees with the source. -/
def candidate_score (c : Candidate) : Nat :=
  let queue_family_importance := 3
  let device_score_importance := 0
  let queue_score := 3 - c.families.unique_indices.length
  (queue_score <<< queue_family_importance) +
    (device_score c.device_type <<< device_score_importance)

/-- Rust's `Iterator::min_by_key`: the first element attaining the minimum
key; a later element replaces the current best only when its key is strictly
smaller. -/
def min_by_key {α : Type} (key : α → Nat) : List α → Option α
  | [] => none
  | x :: xs => some (xs.foldl (fun best y => if key y < key best then y else best) x)

/-- The final ranking step of `select_physical_device`: minimize
`candidate_score` over the filtered candidates. -/
def select_best (candidates : List Candidate) : Option Candidate :=
  min_by_key candidate_score candidates

lemma foldl_min_by_key_spec {α : Type} (key : α → Nat) :
    ∀ (l : List α) (a : α),
      (l.foldl (fun best y => if key y < key best then y else best) a = a ∨
        l.foldl (fun best y => if key y < key best then y else best) a ∈ l) ∧
      key (l.foldl (fun best y => if key y < key best then y else best) a) ≤ key a ∧
      ∀ y ∈ l, key (l.foldl (fun best y => if key y < key best then y else best) a) ≤ key y := by
  intro l
  induction l with
  | nil => intro a; simp
  | cons y ys ih =>
    intro a
    simp only [List.foldl_cons]
    by_cases hy : key y < key a
    · rw [if_pos hy]
      obtain ⟨hmem, hle, hall⟩ := ih y
      refine ⟨?_, le_trans hle (le_of_lt hy), ?_⟩
      · rcases hmem with h | h
        · exact Or.inr (by rw [h]; exact List.mem_cons_self y ys)
        · exact Or.inr (List.mem_cons_of_mem _ h)
      · intro z hz
        rcases List.mem_cons.mp hz with rfl | hz
        · exact hle
        · exact hall z hz
    · rw [if_neg hy]
      obtain ⟨hmem, hle, hall⟩ := ih a
      refine ⟨?_, hle, ?_⟩
      · rcases hmem with h | h
        · exact Or.inl h
        · exact Or.inr (List.mem_cons_of_mem _ h)
      · intro z hz
        rcases List.mem_cons.mp hz with rfl | hz
        · exact le_trans hle (le_of_not_lt hy)
        · exact hall z hz

lemma min_by_key_spec {α : Type} (key : α → Nat) (l : List α) (c : α)
    (h : min_by_key key l = some c) : c ∈ l ∧ ∀ y ∈ l, key c ≤ key y := by
  cases l with
  | nil => cases h
  | cons x xs =>
    rw [min_by_key] at h
    obtain rfl := Option.some_injective _ h
    obtain ⟨hmem, hle, hall⟩ := foldl_min_by_key_spec key xs x
    refine ⟨?_, ?_⟩
    · rcases hmem with h | h
      · exact (by rw [h]; exact List.mem_cons_self x xs)
      · exact List.mem_cons_of_mem _ h
    · intro y hy
      rcases List.mem_cons.mp hy with rfl | hy
      · exact hle
      · exact hall y hy

lemma device_score_le_five (t : PhysicalDeviceType) : device_score t ≤ 5 := by
  unfold device_score
  split_ifs <;> norm_num

/-- C5: the selector returns a minimum-score candidate for the score
`((3 - unique_family_count) <<< 3) + device_type_rank` with ranks discrete 0,
integrated 1, virtual 2, CPU 3, other 4; two candidates identical except for
discrete vs. integrated type resolve to the discrete one (in either list
order), and a strictly better (larger) unique-family count wins regardless of
device types. -/
theorem C5_candidate_ranking :
    (∀ (candidates : List Candidate) (c : Candidate),
      select_best candidates = some c →
      c ∈ candidates ∧ ∀ c' ∈ candidates, candidate_score c ≤ candidate_score c') ∧
    (device_score DISCRETE_GPU = 0 ∧ device_score INTEGRATED_GPU = 1 ∧
      device_score VIRTUAL_GPU = 2 ∧ device_score CPU_TYPE = 3 ∧
      device_score OTHER_GPU = 4) ∧
    (∀ c : Candidate, candidate_score c =
      (3 - c.families.unique_indices.length) * 8 + device_score c.device_type) ∧
    (∀ c c' : Candidate, c.device_type = DISCRETE_GPU →
      c'.device_type = INTEGRATED_GPU → c.families = c'.families →
      select_best [c, c'] = some c ∧ select_best [c', c] = some c) ∧
    (∀ c c' : Candidate,
      c'.families.unique_indices.length < c.families.unique_indices.length →
      c.families.unique_indices.length ≤ 3 →
      candidate_score c < candidate_score c') := by
  have hscore : ∀ c : Candidate, candidate_score c =
      (3 - c.families.unique_indices.length) * 8 + device_score c.device_type := by
    intro c
    simp [candidate_score, Nat.shiftLeft_eq]
  refine ⟨fun candidates c h => min_by_key_spec _ candidates c h,
    ⟨by decide, by decide, by decide, by decide, by decide⟩, hscore, ?_, ?_⟩
  · intro c c' hc hc' hfam
    have hlt : candidate_score c < candidate_score c' := by
      rw [hscore, hscore, hc, hc', hfam]
      norm_num [device_score, DISCRETE_GPU, INTEGRATED_GPU, VIRTUAL_GPU, CPU_TYPE,
        OTHER_GPU]
    constructor
    · simp [select_best, min_by_key, List.foldl, if_neg (not_lt_of_lt hlt)]
    · simp [select_best, min_by_key, List.foldl, if_pos hlt]
  · intro c c' hlen hle
    rw [hscore, hscore]
    have h1 : 3 - c.families.unique_indices.length <
        3 - c'.families.unique_indices.length := by omega
    have h2 := device_score_le_five c.device_type
    have h3 := device_score_le_five c'.device_type
    omega

/-- C5 witness: a discrete and an integrated adapter with identical families
resolve to the discrete one in both orders, and a two-unique-family adapter
beats a one-unique-family adapter on score. -/
theorem C5_candidate_ranking_witness :
    select_best [⟨DISCRETE_GPU, ⟨⟨0, 1⟩, none, none, [0]⟩⟩,
        ⟨INTEGRATED_GPU, ⟨⟨0, 1⟩, none, none, [0]⟩⟩] =
      some ⟨DISCRETE_GPU, ⟨⟨0, 1⟩, none, none, [0]⟩⟩ ∧
    select_best [⟨INTEGRATED_GPU, ⟨⟨0, 1⟩, none, none, [0]⟩⟩,
        ⟨DISCRETE_GPU, ⟨⟨0, 1⟩, none, none, [0]⟩⟩] =
      some ⟨DISCRETE_GPU, ⟨⟨0, 1⟩, none, none, [0]⟩⟩ ∧
    candidate_score ⟨CPU_TYPE, ⟨⟨0, 1⟩, some ⟨1, 1⟩, none, [0, 1]⟩⟩ <
      candidate_score ⟨DISCRETE_GPU, ⟨⟨0, 1⟩, none, none, [0]⟩⟩ :=
  have h := C5_candidate_ranking
  have hpair := h.2.2.2.1 ⟨DISCRETE_GPU, ⟨⟨0, 1⟩, none, none, [0]⟩⟩
    ⟨INTEGRATED_GPU, ⟨⟨0, 1⟩, none, none, [0]⟩⟩ rfl rfl rfl
  ⟨hpair.1, hpair.2,
    h.2.2.2.2 ⟨CPU_TYPE, ⟨⟨0, 1⟩, some ⟨1, 1⟩, none, [0, 1]⟩⟩
      ⟨DISCRETE_GPU, ⟨⟨0, 1⟩, none, none, [0]⟩⟩ (by decide) (by decide)⟩

/-- One entry of `vk::PhysicalDeviceMemoryProperties::memory_types`. -/
structure MemoryType where
  property_flags : Nat
  heap_index : Nat
deriving DecidableEq, Repr

/-- The part of `PhysicalDevice` (`src/physical_device.rs`) that the
memory-type search reads: the enumerated memory-type table of
`mem_properties` (plus the other cached selection outputs). -/
structure PhysicalDevice where
  queue_families : QueueFamilies
  memory_types : List MemoryType
  max_memory_allocation_size : Nat
deriving Repr

/-- The enumerated loop body of `PhysicalDevice::find_memory_type`: walk the
memory types with their indices, returning the first index whose bit is set
in `required_memory_type_bits` and whose property flags contain
`required_properties`. -/
def find_memory_type_go (required_memory_type_bits required_properties : Nat) :
    Nat → List MemoryType → Except Unit Nat
  | _, [] => .error ()
  | i, memory_type :: rest =>
    if 0 < required_memory_type_bits &&& (1 <<< i) ∧
        flags_contains memory_type.property_flags required_properties = true then
      .ok i
    else
      find_memory_type_go required_memory_type_bits required_properties (i + 1) rest

/-- `PhysicalDevice::find_memory_type` (`src/physical_device.rs`). -/
def PhysicalDevice.find_memory_type (pd : PhysicalDevice)
    (required_memory_type_bits required_properties : Nat) : Except Unit Nat :=
  find_memory_type_go required_memory_type_bits required_properties 0 pd.memory_types

/-- `PhysicalDevice::find_optimal_memory_type` (`src/physical_device.rs`):
try `required | optional`, and on failure retry with `required` only. -/
def PhysicalDevice.find_optimal_memory_type (pd : PhysicalDevice)
    (required_memory_type_bits required_properties optional_properties : Nat) :
    Except Unit Nat :=
  match pd.find_memory_type required_memory_type_bits
      (required_properties ||| optional_properties) with
  | .ok i => .ok i
  | .error () =>
    pd.find_memory_type required_memory_type_bits required_properties

/-- Memory type `i` of `pd` is eligible for `props`: the table has an entry
at `i`, its compatibility bit is set in `bits`, and its property flags
contain `props`. -/
def MemSat (pd : PhysicalDevice) (bits props i : Nat) : Prop :=
  ∃ mt, pd.memory_types[i]? = some mt ∧ 0 < bits &&& (1 <<< i) ∧
    flags_contains mt.property_flags props = true

/-- `i` is the lowest eligible index for `props`. -/
def IsLeastMemSat (pd : PhysicalDevice) (bits props i : Nat) : Prop :=
  MemSat pd bits props i ∧ ∀ j, j < i → ¬MemSat pd bits props j

lemma flags_contains_or_left (flags a b : Nat)
    (h : flags_contains flags (a ||| b) = true) : flags_contains flags a = true := by
  simp only [flags_contains, beq_iff_eq] at *
  apply Nat.eq_of_testBit_eq
  intro n
  have hn := congrArg (fun x => Nat.testBit x n) h
  simp only [Nat.testBit_and, Nat.testBit_or] at hn
  simp only [Nat.testBit_and]
  cases ha : a.testBit n
  · simp [ha]
  · simp only [ha, Bool.true_or, Bool.and_true] at hn ⊢
    exact hn

lemma find_memory_type_go_ok (bits props : Nat) :
    ∀ (l : List MemoryType) (i j : Nat),
      find_memory_type_go bits props i l = .ok j →
      ∃ k f, l[k]? = some f ∧ j = i + k ∧ 0 < bits &&& (1 <<< (i + k)) ∧
        flags_contains f.property_flags props = true ∧
        ∀ m, m < k → ∀ f', l[m]? = some f' →
          ¬(0 < bits &&& (1 <<< (i + m)) ∧
            flags_contains f'.property_flags props = true) := by
  intro l
  induction l with
  | nil => intro i j h; simp [find_memory_type_go] at h
  | cons memory_type rest ih =>
    intro i j h
    by_cases hcond : 0 < bits &&& (1 <<< i) ∧
        flags_contains memory_type.property_flags props = true
    · rw [find_memory_type_go, if_pos hcond] at h
      obtain rfl : i = j := by
        have := h
        injection this
      exact ⟨0, memory_type, by simp, by omega, by simpa using hcond.1,
        hcond.2, by omega⟩
    · rw [find_memory_type_go, if_neg hcond] at h
      obtain ⟨k, f, hk, hj, hbit, hflags, hmin⟩ := ih (i + 1) j h
      refine ⟨k + 1, f, by simpa using hk, by omega, ?_, hflags, ?_⟩
      · have : i + 1 + k = i + (k + 1) := by omega
        rw [← this]
        exact hbit
      · intro m hm f' hf'
        cases m with
        | zero =>
          simp at hf'
          subst hf'
          simpa using hcond
        | succ m' =>
          have : i + (m' + 1) = i + 1 + m' := by omega
          rw [this]
          exact hmin m' (by omega) f' (by simpa using hf')

lemma find_memory_type_go_error (bits props : Nat) :
    ∀ (l : List MemoryType) (i : Nat),
      find_memory_type_go bits props i l = .error () ↔
      ∀ k f, l[k]? = some f →
        ¬(0 < bits &&& (1 <<< (i + k)) ∧
          flags_contains f.property_flags props = true) := by
  intro l
  induction l with
  | nil => intro i; simp [find_memory_type_go]
  | cons memory_type rest ih =>
    intro i
    by_cases hcond : 0 < bits &&& (1 <<< i) ∧
        flags_contains memory_type.property_flags props = true
    · rw [find_memory_type_go, if_pos hcond]
      simp only [iff_iff_implies_and_implies]
      constructor
      · intro h; cases h
      · intro h
        exact absurd (by simpa using hcond) (by simpa using h 0 memory_type (by simp))
    · rw [find_memory_type_go, if_neg hcond, ih (i + 1)]
      constructor
      · intro h k f hf
        cases k with
        | zero =>
          simp at hf
          subst hf
          simpa using hcond
        | succ k' =>
          have : i + (k' + 1) = i + 1 + k' := by omega
          rw [this]
          exact h k' f (by simpa using hf)
      · intro h k f hf
        have : i + 1 + k = i + (k + 1) := by omega
        rw [this]
        exact h (k + 1) f (by simpa using hf)

lemma find_memory_type_ok (pd : PhysicalDevice) (bits props i : Nat)
    (h : pd.find_memory_type bits props = .ok i) : IsLeastMemSat pd bits props i := by
  obtain ⟨k, f, hk, hj, hbit, hflags, hmin⟩ :=
    find_memory_type_go_ok bits props pd.memory_types 0 i h
  have hk' : k = i := by omega
  subst hk'
  refine ⟨⟨f, hk, by simpa using hbit, hflags⟩, ?_⟩
  intro j hj' ⟨mt, hmt, hbit', hflags'⟩
  exact hmin j hj' mt hmt ⟨by simpa using hbit', hflags'⟩

lemma find_memory_type_error (pd : PhysicalDevice) (bits props : Nat) :
    pd.find_memory_type bits props = .error () ↔ ∀ j, ¬MemSat pd bits props j := by
  rw [PhysicalDevice.find_memory_type, find_memory_type_go_error]
  constructor
  · intro h j ⟨mt, hmt, hbit, hflags⟩
    exact h j mt hmt ⟨by simpa using hbit, hflags⟩
  · intro h k f hf hcond
    exact h k ⟨f, hf, by simpa using hcond.1, hcond.2⟩

lemma isLeastMemSat_unique (pd : PhysicalDevice) (bits props i j : Nat)
    (hi : IsLeastMemSat pd bits props i) (hj : IsLeastMemSat pd bits props j) :
    i = j := by
  rcases lt_trichotomy i j with h | h | h
  · exact absurd hi.1 (hj.2 i h)
  · exact h
  · exact absurd hj.1 (hi.2 j h)

lemma memSat_or_left (pd : PhysicalDevice) (bits a b i : Nat)
    (h : MemSat pd bits (a ||| b) i) : MemSat pd bits a i := by
  obtain ⟨mt, hmt, hbit, hflags⟩ := h
  exact ⟨mt, hmt, hbit, flags_contains_or_left _ _ _ hflags⟩

/-- C6: `find_optimal_memory_type` returns the lowest-indexed memory type
whose compatibility bit is set and whose flags contain
`required | optional`; failing that, the lowest-indexed one containing only
`required`; failing that, an error.  Every index it returns has its
compatibility bit set and flags containing `required_properties`. -/
theorem C6_find_optimal_memory_type (pd : PhysicalDevice) (bits req opt : Nat) :
    (∀ i, pd.find_optimal_memory_type bits req opt = .ok i → MemSat pd bits req i) ∧
    (∀ i, pd.find_optimal_memory_type bits req opt = .ok i ↔
      (IsLeastMemSat pd bits (req ||| opt) i ∨
        ((∀ j, ¬MemSat pd bits (req ||| opt) j) ∧ IsLeastMemSat pd bits req i))) ∧
    (pd.find_optimal_memory_type bits req opt = .error () ↔
      ∀ j, ¬MemSat pd bits req j) := by
  cases hfirst : pd.find_memory_type bits (req ||| opt) with
  | ok i0 =>
    have hleast := find_memory_type_ok pd bits (req ||| opt) i0 hfirst
    have hopt : pd.find_optimal_memory_type bits req opt = .ok i0 := by
      rw [PhysicalDevice.find_optimal_memory_type, hfirst]
    refine ⟨?_, ?_, ?_⟩
    · intro i h
      rw [hopt] at h
      injection h with h
      subst h
      exact memSat_or_left pd bits req opt i0 hleast.1
    · intro i
      rw [hopt]
      constructor
      · intro h
        injection h with h
        subst h
        exact Or.inl hleast
      · rintro (h | ⟨hnone, -⟩)
        · rw [isLeastMemSat_unique pd bits (req ||| opt) i0 i hleast h]
        · exact absurd hleast.1 (hnone i0)
    · rw [hopt]
      constructor
      · intro h; cases h
      · intro h
        exact absurd (memSat_or_left pd bits req opt i0 hleast.1) (h i0)
  | error e =>
    obtain rfl : e = () := rfl
    have hnone := (find_memory_type_error pd bits (req ||| opt)).mp hfirst
    have hopt : pd.find_optimal_memory_type bits req opt =
        pd.find_memory_type bits req := by
      rw [PhysicalDevice.find_optimal_memory_type, hfirst]
    cases hsecond : pd.find_memory_type bits req with
    | ok i0 =>
      have hleast := find_memory_type_ok pd bits req i0 hsecond
      refine ⟨?_, ?_, ?_⟩
      · intro i h
        rw [hopt, hsecond] at h
        injection h with h
        subst h
        exact hleast.1
      · intro i
        rw [hopt, hsecond]
        constructor
        · intro h
          injection h with h
          subst h
          exact Or.inr ⟨hnone, hleast⟩
        · rintro (h | ⟨-, h⟩)
          · exact absurd h.1 (hnone i)
          · rw [isLeastMemSat_unique pd bits req i0 i hleast h]
      · rw [hopt, hsecond]
        constructor
        · intro h; cases h
        · intro h
          exact absurd hleast.1 (h i0)
    | error e' =>
      obtain rfl : e' = () := rfl
      have hnone' := (find_memory_type_error pd bits req).mp hsecond
      refine ⟨?_, ?_, ?_⟩
      · intro i h
        rw [hopt, hsecond] at h
        cases h
      · intro i
        rw [hopt, hsecond]
        constructor
        · intro h; cases h
        · rintro (h | ⟨-, h⟩)
          · exact absurd (memSat_or_left pd bits req opt i h.1) (hnone' i)
          · exact absurd h.1 (hnone' i)
      · rw [hopt, hsecond]
        simp only [true_iff]
        exact hnone'

/-- C6 witness: on a concrete three-type table (flags 1, 6, 2; mask 0b111;
required 2, optional 4) the search returns index 1, which is eligible for the
required flags; with an all-zero compatibility mask it errors. -/
theorem C6_find_optimal_memory_type_witness :
    MemSat ⟨⟨⟨0, 1⟩, none, none, [0]⟩, [⟨1, 0⟩, ⟨6, 0⟩, ⟨2, 0⟩], 0⟩ 7 2 1 ∧
    (IsLeastMemSat ⟨⟨⟨0, 1⟩, none, none, [0]⟩, [⟨1, 0⟩, ⟨6, 0⟩, ⟨2, 0⟩], 0⟩ 7 (2 ||| 4) 1 ∨
      ((∀ j, ¬MemSat ⟨⟨⟨0, 1⟩, none, none, [0]⟩, [⟨1, 0⟩, ⟨6, 0⟩, ⟨2, 0⟩], 0⟩ 7 (2 ||| 4) j) ∧
        IsLeastMemSat ⟨⟨⟨0, 1⟩, none, none, [0]⟩, [⟨1, 0⟩, ⟨6, 0⟩, ⟨2, 0⟩], 0⟩ 7 2 1)) ∧
    PhysicalDevice.find_optimal_memory_type
      ⟨⟨⟨0, 1⟩, none, none, [0]⟩, [⟨1, 0⟩, ⟨6, 0⟩, ⟨2, 0⟩], 0⟩ 0 2 4 = .error () :=
  ⟨(C6_find_optimal_memory_type ⟨⟨⟨0, 1⟩, none, none, [0]⟩,
      [⟨1, 0⟩, ⟨6, 0⟩, ⟨2, 0⟩], 0⟩ 7 2 4).1 1 rfl,
   ((C6_find_optimal_memory_type ⟨⟨⟨0, 1⟩, none, none, [0]⟩,
      [⟨1, 0⟩, ⟨6, 0⟩, ⟨2, 0⟩], 0⟩ 7 2 4).2.1 1).mp rfl,
   (C6_find_optimal_memory_type ⟨⟨⟨0, 1⟩, none, none, [0]⟩,
      [⟨1, 0⟩, ⟨6, 0⟩, ⟨2, 0⟩], 0⟩ 0 2 4).2.2.mpr (by
        rintro j ⟨mt, hmt, hbit, hflags⟩
        simp [Nat.zero_and] at hbit)⟩

/-- `vk::Result` is an `i32` newtype; modelled by its raw value. -/
abbrev VkResult := Int

def ERROR_OUT_OF_HOST_MEMORY : VkResult := -1

def ERROR_OUT_OF_DEVICE_MEMORY : VkResult := -2

def ERROR_INITIALIZATION_FAILED : VkResult := -3

def ERROR_DEVICE_LOST : VkResult := -4

def ERROR_UNKNOWN : VkResult := -13

/-- `OutOfMemoryError` (`src/render/errors.rs`). -/
inductive OutOfMemoryError where
  | OutOfDeviceMemory
  | OutOfHostMemory
deriving DecidableEq, Repr

/-- `impl From<vk::Result> for OutOfMemoryError`
(`src/render/errors.rs`): the catch-all arm of the source `panic!`s, which
the embedding represents as `none`. -/
def OutOfMemoryError.ofVkResult (value : VkResult) : Option OutOfMemoryError :=
  if value = ERROR_OUT_OF_DEVICE_MEMORY then some .OutOfDeviceMemory
  else if value = ERROR_OUT_OF_HOST_MEMORY then some .OutOfHostMemory
  else none

/-- `QueueSubmitError` (`src/render/errors.rs`); the `DeviceIsLost` payload
is a unit struct and is flattened. -/
inductive QueueSubmitError where
  | OutOfMemory (e : OutOfMemoryError)
  | DeviceIsLost
deriving DecidableEq, Repr

/-- `impl From<vk::Result> for QueueSubmitError` (`src/render/errors.rs`):
out-of-memory codes delegate to the `OutOfMemoryError` conversion,
`ERROR_DEVICE_LOST` maps to `DeviceIsLost`, and the catch-all arm `panic!`s
(`none` here). -/
def QueueSubmitError.ofVkResult (value : VkResult) : Option QueueSubmitError :=
  if value = ERROR_OUT_OF_DEVICE_MEMORY ∨ value = ERROR_OUT_OF_HOST_MEMORY then
    (OutOfMemoryError.ofVkResult value).map QueueSubmitError.OutOfMemory
  else if value = ERROR_DEVICE_LOST then some .DeviceIsLost
  else none

/-- The variants of `InitializationError` (`src/render/errors.rs`) reachable
from its `From<vk::Result>` conversion (the variants wrapping foreign error
types from excluded collaborator crates are omitted). -/
inductive InitializationError where
  | NoCompatibleDevices
  | GenericOutOfMemoryError (e : OutOfMemoryError)
  | DeviceIsLost
  | Unknown
deriving DecidableEq, Repr

/-- `impl From<vk::Result> for InitializationError`
(`src/render/errors.rs`): total — out-of-memory codes delegate to the
`OutOfMemoryError` conversion, `ERROR_DEVICE_LOST` maps to `DeviceIsLost`,
`ERROR_UNKNOWN` and `ERROR_INITIALIZATION_FAILED` map to `Unknown`, and the
catch-all arm logs and maps to `Unknown`.  (The inner `getD` arm is
unreachable: the guard guarantees the inner conversion succeeds.) -/
def InitializationError.ofVkResult (value : VkResult) : InitializationError :=
  if value = ERROR_OUT_OF_DEVICE_MEMORY ∨ value = ERROR_OUT_OF_HOST_MEMORY then
    ((OutOfMemoryError.ofVkResult value).map
      InitializationError.GenericOutOfMemoryError).getD .Unknown
  else if value = ERROR_DEVICE_LOST then .DeviceIsLost
  else if value = ERROR_UNKNOWN then .Unknown
  else if value = ERROR_INITIALIZATION_FAILED then .Unknown
  else .Unknown

/-- C3 counterexample: the claim says all three conversions are total and
never panic; but `From<vk::Result> for OutOfMemoryError` panics (modelled as
`none`) on the concrete unrecognized code `ERROR_DEVICE_LOST`, and
`From<vk::Result> for QueueSubmitError` panics on the concrete code
`ERROR_INITIALIZATION_FAILED`. -/
theorem C3_counterexample :
    OutOfMemoryError.ofVkResult ERROR_DEVICE_LOST = none ∧
    QueueSubmitError.ofVkResult ERROR_INITIALIZATION_FAILED = none := by
  constructor <;> rfl

/-- C3 as amended: the `InitializationError` conversion is total and maps
every unrecognized code to `Unknown` (logged); the `OutOfMemoryError` and
`QueueSubmitError` conversions are partial, converting exactly the
out-of-memory codes (resp. plus `ERROR_DEVICE_LOST`) and panicking on every
other code.  Stated for every code `v`: the two partial conversions succeed
precisely on their recognized codes (so they panic at `ERROR_UNKNOWN`,
`ERROR_INITIALIZATION_FAILED`, and every other unlisted code), the values at
every recognized code are the claimed variants, and `InitializationError`
maps everything outside its two non-`Unknown` codes to `Unknown`. -/
theorem C3_result_conversions (v : VkResult) :
    ((OutOfMemoryError.ofVkResult v).isSome ↔
      (v = ERROR_OUT_OF_DEVICE_MEMORY ∨ v = ERROR_OUT_OF_HOST_MEMORY)) ∧
    ((QueueSubmitError.ofVkResult v).isSome ↔
      (v = ERROR_OUT_OF_DEVICE_MEMORY ∨ v = ERROR_OUT_OF_HOST_MEMORY ∨
        v = ERROR_DEVICE_LOST)) ∧
    (v ≠ ERROR_OUT_OF_DEVICE_MEMORY → v ≠ ERROR_OUT_OF_HOST_MEMORY →
      v ≠ ERROR_DEVICE_LOST → InitializationError.ofVkResult v = .Unknown) ∧
    OutOfMemoryError.ofVkResult ERROR_OUT_OF_DEVICE_MEMORY =
      some .OutOfDeviceMemory ∧
    OutOfMemoryError.ofVkResult ERROR_OUT_OF_HOST_MEMORY =
      some .OutOfHostMemory ∧
    QueueSubmitError.ofVkResult ERROR_OUT_OF_DEVICE_MEMORY =
      some (.OutOfMemory .OutOfDeviceMemory) ∧
    QueueSubmitError.ofVkResult ERROR_OUT_OF_HOST_MEMORY =
      some (.OutOfMemory .OutOfHostMemory) ∧
    QueueSubmitError.ofVkResult ERROR_DEVICE_LOST = some .DeviceIsLost ∧
    InitializationError.ofVkResult ERROR_OUT_OF_DEVICE_MEMORY =
      .GenericOutOfMemoryError .OutOfDeviceMemory ∧
    InitializationError.ofVkResult ERROR_OUT_OF_HOST_MEMORY =
      .GenericOutOfMemoryError .OutOfHostMemory ∧
    InitializationError.ofVkResult ERROR_DEVICE_LOST = .DeviceIsLost ∧
    InitializationError.ofVkResult ERROR_UNKNOWN = .Unknown ∧
    InitializationError.ofVkResult ERROR_INITIALIZATION_FAILED = .Unknown := by
  refine ⟨?_, ?_, ?_, by decide, by decide, by decide, by decide, by decide,
    by decide, by decide, by decide, by decide, by decide⟩
  · rw [OutOfMemoryError.ofVkResult]
    split_ifs with h1 h2
    · simp [h1]
    · simp [h2]
    · simp [h1, h2]
  · rw [QueueSubmitError.ofVkResult]
    split_ifs with h1 h2
    · rcases h1 with h | h <;> subst h <;> decide
    · subst h2
      decide
    · push_neg at h1
      simp [h1.1, h1.2, h2]
  · intro h1 h2 h3
    simp [InitializationError.ofVkResult, h1, h2, h3]

/-- C3 witness: at the unrecognized code -5 (`ERROR_MEMORY_MAP_FAILED`) the
initialization conversion yields `Unknown` and the two partial conversions
panic (`isSome` is false); at `ERROR_UNKNOWN` both partial conversions
panic; at `ERROR_OUT_OF_HOST_MEMORY` the out-of-memory conversion succeeds. -/
theorem C3_result_conversions_witness :
    InitializationError.ofVkResult (-5) = .Unknown ∧
    ((OutOfMemoryError.ofVkResult (-5)).isSome ↔
      ((-5 : Int) = ERROR_OUT_OF_DEVICE_MEMORY ∨
        (-5 : Int) = ERROR_OUT_OF_HOST_MEMORY)) ∧
    ((QueueSubmitError.ofVkResult ERROR_UNKNOWN).isSome ↔
      (ERROR_UNKNOWN = ERROR_OUT_OF_DEVICE_MEMORY ∨
        ERROR_UNKNOWN = ERROR_OUT_OF_HOST_MEMORY ∨
        ERROR_UNKNOWN = ERROR_DEVICE_LOST)) ∧
    OutOfMemoryError.ofVkResult ERROR_OUT_OF_HOST_MEMORY =
      some .OutOfHostMemory :=
  ⟨(C3_result_conversions (-5)).2.2.1 (by decide) (by decide) (by decide),
   (C3_result_conversions (-5)).1,
   (C3_result_conversions ERROR_UNKNOWN).2.1,
   (C3_result_conversions (-5)).2.2.2.2.1⟩

/-- `vk::PipelineStageFlags` (synchronization-1) values used by the
submission structures. -/
inductive PipelineStageFlags where
  | TRANSFER
deriving DecidableEq, Repr

/-- The two synchronization objects created by `submit_and_wait`:
`image_clear_finished` is the semaphore, `all_done` the fence. -/
inductive SyncObj where
  | image_clear_finished
  | all_done
deriving DecidableEq, Repr

/-- The two command buffers submitted by `submit_and_wait`. -/
inductive CmdBuf where
  | clear_img
  | copy_image_to_buffer
deriving DecidableEq, Repr

/-- The two queue fields of `Queues` read by `renderer.rs`. -/
inductive Queue where
  | compute
  | transfer
deriving DecidableEq, Repr

/-- `vk::SubmitInfo` as populated by `submit_and_wait` (count/pointer pairs
modelled as lists). -/
structure SubmitInfo where
  wait_semaphores : List SyncObj
  wait_dst_stage_mask : List PipelineStageFlags
  command_buffers : List CmdBuf
  signal_semaphores : List SyncObj
deriving DecidableEq, Repr

/-- `clear_image_submit` of `Renderer::submit_and_wait` (`src/renderer.rs`). -/
def clear_image_submit : SubmitInfo where
  wait_semaphores := []
  wait_dst_stage_mask := []
  command_buffers := [.clear_img]
  signal_semaphores := [.image_clear_finished]

/-- `transfer_image_submit` of `Renderer::submit_and_wait`
(`src/renderer.rs`); `wait_for` is `vk::PipelineStageFlags::TRANSFER`. -/
def transfer_image_submit : SubmitInfo where
  wait_semaphores := [.image_clear_finished]
  wait_dst_stage_mask := [.TRANSFER]
  command_buffers := [.copy_image_to_buffer]
  signal_semaphores := []

/-- Outcomes of the five fallible device calls made by `submit_and_wait`, in
program order. -/
structure SubmitOracle where
  create_semaphore : Except VkResult Unit
  create_fence : Except VkResult Unit
  submit_compute : Except VkResult Unit
  submit_transfer : Except VkResult Unit
  wait_for_fences : Except VkResult Unit

/-- Observable effects of a `submit_and_wait` run: successfully issued queue
submissions (queue, submit infos, fence argument), synchronization objects
destroyed before returning (in destruction order), and the result. -/
structure SubmitTrace where
  queued : List (Queue × List SubmitInfo × Option SyncObj)
  destroyed : List SyncObj
  result : Except VkResult Unit
deriving Repr

/-- `Renderer::submit_and_wait` (`src/renderer.rs`): create the semaphore,
create the fence (`on_err` destroys the semaphore), submit the clear to the
compute queue with a null fence, submit the copy to the transfer queue with
the `all_done` fence, wait on the fence; each of the three later calls runs
`destroy_objs` (semaphore then fence) on failure, and the success path runs
it as well. -/
def submit_and_wait (o : SubmitOracle) : SubmitTrace :=
  match o.create_semaphore with
  | .error e => { queued := [], destroyed := [], result := .error e }
  | .ok _ =>
    match o.create_fence with
    | .error e =>
      { queued := [], destroyed := [.image_clear_finished], result := .error e }
    | .ok _ =>
      match o.submit_compute with
      | .error e =>
        { queued := [],
          destroyed := [.image_clear_finished, .all_done], result := .error e }
      | .ok _ =>
        match o.submit_transfer with
        | .error e =>
          { queued := [(.compute, [clear_image_submit], none)],
            destroyed := [.image_clear_finished, .all_done], result := .error e }
        | .ok _ =>
          match o.wait_for_fences with
          | .error e =>
            { queued := [(.compute, [clear_image_submit], none),
                (.transfer, [transfer_image_submit], some .all_done)],
              destroyed := [.image_clear_finished, .all_done], result := .error e }
          | .ok _ =>
            { queued := [(.compute, [clear_image_submit], none),
                (.transfer, [transfer_image_submit], some .all_done)],
              destroyed := [.image_clear_finished, .all_done], result := .ok () }

/-- C8: if fence creation fails, the already-created semaphore is destroyed
before the error returns; if any step after both creations fails, the
semaphore and the fence are both destroyed before the error returns; the
compute submission signals the semaphore, and the transfer submission waits
on it at the TRANSFER stage and signals the completion fence. -/
theorem C8_submit_and_wait_cleanup (o : SubmitOracle) :
    (∀ e, o.create_semaphore = .ok () → o.create_fence = .error e →
      (submit_and_wait o).destroyed = [.image_clear_finished] ∧
      (submit_and_wait o).result = .error e) ∧
    (o.create_semaphore = .ok () → o.create_fence = .ok () →
      ∀ e, (submit_and_wait o).result = .error e →
      (submit_and_wait o).destroyed = [.image_clear_finished, .all_done]) ∧
    clear_image_submit.signal_semaphores = [.image_clear_finished] ∧
    transfer_image_submit.wait_semaphores = [.image_clear_finished] ∧
    transfer_image_submit.wait_dst_stage_mask = [.TRANSFER] ∧
    ((submit_and_wait o).result = .ok () →
      (submit_and_wait o).queued =
        [(.compute, [clear_image_submit], none),
         (.transfer, [transfer_image_submit], some .all_done)]) := by
  obtain ⟨cs, cf, sc, st, wf⟩ := o
  refine ⟨?_, ?_, rfl, rfl, rfl, ?_⟩
  · intro e h1 h2
    cases cs <;> cases cf <;> simp_all [submit_and_wait]
  · intro h1 h2 e hres
    cases cs <;> cases cf <;> cases sc <;> cases st <;> cases wf <;>
      simp_all [submit_and_wait]
  · intro hres
    cases cs <;> cases cf <;> cases sc <;> cases st <;> cases wf <;>
      simp_all [submit_and_wait]

/-- C8 witness: concrete runs — fence creation failing with -1, the transfer
submission failing with -4, and a fully successful run. -/
theorem C8_submit_and_wait_cleanup_witness :
    ((submit_and_wait ⟨.ok (), .error (-1), .ok (), .ok (), .ok ()⟩).destroyed =
        [.image_clear_finished] ∧
      (submit_and_wait ⟨.ok (), .error (-1), .ok (), .ok (), .ok ()⟩).result =
        .error (-1)) ∧
    (submit_and_wait ⟨.ok (), .ok (), .ok (), .error (-4), .ok ()⟩).destroyed =
      [.image_clear_finished, .all_done] ∧
    (submit_and_wait ⟨.ok (), .ok (), .ok (), .ok (), .ok ()⟩).queued =
      [(.compute, [clear_image_submit], none),
       (.transfer, [transfer_image_submit], some .all_done)] :=
  ⟨(C8_submit_and_wait_cleanup ⟨.ok (), .error (-1), .ok (), .ok (), .ok ()⟩).1
      (-1) rfl rfl,
   (C8_submit_and_wait_cleanup ⟨.ok (), .ok (), .ok (), .error (-4), .ok ()⟩).2.1
      rfl rfl (-4) rfl,
   (C8_submit_and_wait_cleanup ⟨.ok (), .ok (), .ok (), .ok (), .ok ()⟩).2.2.2.2.2
      rfl⟩

/-- The device objects created by `GPUData::new` (`src/renderer.rs`). -/
inductive GpuObj where
  | clear_image
  | clear_image_memory
  | final_buffer
  | final_buffer_memory
deriving DecidableEq, Repr

/-- Success/failure outcomes of the six fallible steps of `GPUData::new`, in
program order; each of the two allocations is attempted with optimal
properties and retried once with fallback properties (`or_else`). -/
structure GpuNewOracle where
  create_image : Bool
  alloc_image_device_local : Bool
  alloc_image_any : Bool
  create_buffer : Bool
  alloc_buffer_cached : Bool
  alloc_buffer_host_visible : Bool
deriving DecidableEq, Repr

/-- Observable effects of one `GPUData::new` run: objects created and
objects destroyed, each in event order, and whether construction succeeded
(the error payloads are irrelevant to the rollback property). -/
structure GpuNewTrace where
  created : List GpuObj
  destroyed : List GpuObj
  success : Bool
deriving DecidableEq, Repr

/-- `GPUData::new` (`src/renderer.rs`): create the image; allocate and bind
its memory (DEVICE_LOCAL, retrying with empty flags), destroying the image
when both attempts fail; create the buffer, on failure running
`destroy!(device => &clear_image_memory, &clear_image)`; allocate and bind
the buffer memory (HOST_VISIBLE | HOST_CACHED, retrying with HOST_VISIBLE),
on failure running
`destroy!(device => &clear_image_memory, &clear_image, &final_buffer)`. -/
def gpu_data_new (o : GpuNewOracle) : GpuNewTrace :=
  if ¬o.create_image then
    { created := [], destroyed := [], success := false }
  else if ¬(o.alloc_image_device_local || o.alloc_image_any) then
    { created := [.clear_image], destroyed := [.clear_image], success := false }
  else if ¬o.create_buffer then
    { created := [.clear_image, .clear_image_memory],
      destroyed := [.clear_image_memory, .clear_image], success := false }
  else if ¬(o.alloc_buffer_cached || o.alloc_buffer_host_visible) then
    { created := [.clear_image, .clear_image_memory, .final_buffer],
      destroyed := [.clear_image_memory, .clear_image, .final_buffer],
      success := false }
  else
    { created := [.clear_image, .clear_image_memory, .final_buffer,
        .final_buffer_memory],
      destroyed := [], success := true }

/-- C9 counterexample: when the buffer-memory allocation fails (both
attempts), the objects created so far are image, image memory, buffer (in
that order) and the rollback destroys image memory, image, buffer (in that
order) — which is not the reverse of the creation order, and which frees the
image's backing memory before destroying the image, contradicting the
claimed order on this concrete input. -/
theorem C9_counterexample :
    (gpu_data_new ⟨true, true, true, true, false, false⟩).created =
      [.clear_image, .clear_image_memory, .final_buffer] ∧
    (gpu_data_new ⟨true, true, true, true, false, false⟩).destroyed =
      [.clear_image_memory, .clear_image, .final_buffer] ∧
    (gpu_data_new ⟨true, true, true, true, false, false⟩).destroyed ≠
      (gpu_data_new ⟨true, true, true, true, false, false⟩).created.reverse ∧
    (gpu_data_new ⟨true, true, true, true, false, false⟩).destroyed.indexOf
        GpuObj.clear_image_memory <
      (gpu_data_new ⟨true, true, true, true, false, false⟩).destroyed.indexOf
        GpuObj.clear_image := by
  refine ⟨rfl, rfl, by decide, by decide⟩

/-- C9 as amended: on every failure path of `GPUData::new`, the set of
objects destroyed before the error propagates is exactly the set of objects
created earlier in that construction (each destroyed exactly once — zero
leaks, zero double destroys); the destruction order, however, frees the
image's backing memory before the image and destroys the buffer last, rather
than strictly reversing creation order; on success nothing is destroyed. -/
theorem C9_gpu_data_new_rollback (o : GpuNewOracle) :
    ((gpu_data_new o).success = false →
      (gpu_data_new o).destroyed.Perm (gpu_data_new o).created) ∧
    ((gpu_data_new o).success = true → (gpu_data_new o).destroyed = []) ∧
    (gpu_data_new o).destroyed.Nodup ∧
    (gpu_data_new o).created.Nodup := by
  unfold gpu_data_new
  split_ifs
  all_goals refine ⟨?_, ?_, by decide, by decide⟩
  all_goals intro h
  all_goals first
    | decide
    | exact absurd h (by decide)

/-- C9 witness: the buffer-memory-allocation failure path destroys a
permutation of what it created, with no duplicates. -/
theorem C9_gpu_data_new_rollback_witness :
    (gpu_data_new ⟨true, true, true, true, false, false⟩).destroyed.Perm
      (gpu_data_new ⟨true, true, true, true, false, false⟩).created ∧
    (gpu_data_new ⟨true, true, true, true, false, false⟩).destroyed.Nodup :=
  ⟨(C9_gpu_data_new_rollback ⟨true, true, true, true, false, false⟩).1 rfl,
   (C9_gpu_data_new_rollback ⟨true, true, true, true, false, false⟩).2.2.1⟩
